import Mathlib

/-!
Verification of the wind-solar-storage capacity-expansion LP
(`ZHANG_HWK_3_OPT.py`) against its natural-language specification.

The script builds a Pyomo `AbstractModel` over an ordered time set
`t = range(8760)` and a four-element technology set, with non-negative
decision variables `cap[tech]`, `ESS_SOC[t]`, `ESS_c[t]`, `ESS_d[t]`,
`curt[t]`, a linear cost objective, and five families of per-hour linear
constraints.  We embed the model shallowly: hours are `Fin 8760`, all
quantities are rationals, each Pyomo constraint rule becomes a `Prop`-valued
definition translated directly from its source rule, and a feasible point is
an assignment satisfying every variable domain and every constraint row.
-/

namespace ZhangHwk3

/-- The time index: `model.t = Set(initialize=[i for i in range(8760)])`. -/
abbrev numHours : Nat := 8760

/-- An hour of the year, an element of the ordered set `model.t`. -/
abbrev Hour := Fin numHours

/-- The technology index set
`model.tech = Set(initialize=['w_cap','s_cap','ESS_power_cap','ESS_energy_cap'])`. -/
inductive Tech where
  | w_cap
  | s_cap
  | ESS_power_cap
  | ESS_energy_cap
deriving DecidableEq, Fintype

/-- `solar_cap_cost = 800000000` ($/GW). -/
def solar_cap_cost : ℚ := 800000000

/-- `wind_cap_cost = 1200000000` ($/GW). -/
def wind_cap_cost : ℚ := 1200000000

/-- `ESS_p_cap_cost = 200000000` ($/GW). -/
def ESS_p_cap_cost : ℚ := 200000000

/-- `ESS_e_cap_cost = 150000000` ($/GWh). -/
def ESS_e_cap_cost : ℚ := 150000000

/-- `ESS_min_level = 0.20`: minimum level of discharge of the battery. -/
def ESS_min_level : ℚ := 0.20

/-- `ESS_eta_c = 0.95`: charging efficiency. -/
def ESS_eta_c : ℚ := 0.95

/-- `ESS_eta_d = 0.9`: discharging efficiency. -/
def ESS_eta_d : ℚ := 0.9

/-- `ESS_p_var_cost = 5000`: ESS discharge cost ($/GWh). -/
def ESS_p_var_cost : ℚ := 5000

/-- `curtailment_cost = 1000`: curtailment penalty ($/GWh). -/
def curtailment_cost : ℚ := 1000

/-- The cost table `model.costs`, a `Param` over `model.tech` initialized with
the dictionary at line 40 of the source. -/
def costs : Tech → ℚ
  | .w_cap => wind_cap_cost
  | .s_cap => solar_cap_cost
  | .ESS_power_cap => ESS_p_cap_cost
  | .ESS_energy_cap => ESS_e_cap_cost

/-- The per-hour input data loaded into `model.wind`, `model.solar`,
`model.demand` by the `DataPortal`. -/
structure ModelData where
  wind : Hour → ℚ
  solar : Hour → ℚ
  demand : Hour → ℚ

/-- A value for every decision variable of the model:
`model.cap`, `model.ESS_SOC`, `model.ESS_c`, `model.ESS_d`, `model.curt`. -/
structure Assignment where
  cap : Tech → ℚ
  ESS_SOC : Hour → ℚ
  ESS_c : Hour → ℚ
  ESS_d : Hour → ℚ
  curt : Hour → ℚ

/-- Every variable is declared with `domain = NonNegativeReals`
(lines 49-53): the non-negativity is a variable domain, attached to the
variable declarations themselves, separate from the constraint rows below. -/
def VarDomains (a : Assignment) : Prop :=
  (∀ i : Tech, 0 ≤ a.cap i) ∧
  (∀ t : Hour, 0 ≤ a.ESS_SOC t) ∧
  (∀ t : Hour, 0 ≤ a.ESS_c t) ∧
  (∀ t : Hour, 0 ≤ a.ESS_d t) ∧
  (∀ t : Hour, 0 ≤ a.curt t)

/-- The objective `obj_expression` (line 58-59), as a function of the cost
table `Param` and the decision variables:
`sum(cap[i]*costs[i] for i in tech) + sum(ESS_d[t]*ESS_p_var_cost + curt[t]*curtailment_cost for t in t)`. -/
def obj_expression (c : Tech → ℚ) (a : Assignment) : ℚ :=
  (∑ i : Tech, a.cap i * c i) +
    ∑ t : Hour, (a.ESS_d t * ESS_p_var_cost + a.curt t * curtailment_cost)

/-- Supply/demand match constraint `match_const` (line 63-64). -/
def match_const (d : ModelData) (a : Assignment) (i : Hour) : Prop :=
  d.solar i * a.cap .s_cap + d.wind i * a.cap .w_cap + a.ESS_d i - a.ESS_c i
    - a.curt i - d.demand i = 0

/-- ESS charge/discharge constraint `ESS_charge_disc_const` (line 68-69). -/
def ESS_charge_disc_const (a : Assignment) (i : Hour) : Prop :=
  a.ESS_c i + a.ESS_d i ≤ a.cap .ESS_power_cap

/-- ESS max constraint `ESS_max_const` (line 73-74). -/
def ESS_max_const (a : Assignment) (i : Hour) : Prop :=
  a.ESS_SOC i ≤ a.cap .ESS_energy_cap

/-- ESS min constraint `ESS_min_const` (line 78-79). -/
def ESS_min_const (a : Assignment) (i : Hour) : Prop :=
  ESS_min_level * a.cap .ESS_energy_cap ≤ a.ESS_SOC i

/-- `model.t.first()`: the first element of the ordered set, hour 0. -/
def firstHour : Hour := ⟨0, by decide⟩

/-- `model.t.last()`: the last element of the ordered set, hour 8759. -/
def lastHour : Hour := ⟨numHours - 1, by decide⟩

/-- SOC constraint `SOC_const` (lines 83-86): at the first hour the previous
state of charge is read from the last hour, otherwise from index `i-1`. -/
def SOC_const (a : Assignment) (i : Hour) : Prop :=
  if i = firstHour then
    a.ESS_SOC i =
      a.ESS_SOC lastHour + a.ESS_c i * ESS_eta_c - a.ESS_d i / ESS_eta_d
  else
    a.ESS_SOC i =
      a.ESS_SOC ⟨i.val - 1, Nat.lt_of_le_of_lt (Nat.sub_le _ _) i.isLt⟩
        + a.ESS_c i * ESS_eta_c - a.ESS_d i / ESS_eta_d

/-- A feasible point of the LP: all variable domains and every row of the
five constraint families `model.match`, `model.ESS_charge_disc_rate`,
`model.ESS_max`, `model.ESS_min`, `model.SOC_const`. -/
def Feasible (d : ModelData) (a : Assignment) : Prop :=
  VarDomains a ∧
    ∀ t : Hour, match_const d a t ∧ ESS_charge_disc_const a t ∧
      ESS_max_const a t ∧ ESS_min_const a t ∧ SOC_const a t

/-- The chronologically preceding hour, with the cyclic wraparound used by
the SOC recursion: the hour before the first hour is the last hour. -/
def prevHour (i : Hour) : Hour :=
  if i.val = 0 then lastHour
  else ⟨i.val - 1, Nat.lt_of_le_of_lt (Nat.sub_le _ _) i.isLt⟩

/-- `v` is the optimal objective value of the model with cost table `c` and
data `d`: attained by some feasible point and a lower bound on the objective
of every feasible point. -/
def IsOptimalValue (c : Tech → ℚ) (d : ModelData) (v : ℚ) : Prop :=
  (∃ a, Feasible d a ∧ obj_expression c a = v) ∧
    ∀ a, Feasible d a → v ≤ obj_expression c a

/-- Modelled from the spec: the build-time input validation of the §4.1
`build` contract (`DataShapeError` for a series whose length is not 8760,
`ConfigError` for a cost table not covering the technology keys) is not
implemented in `src/ZHANG_HWK_3_OPT.py`, which delegates loading to an
external library (`DataPortal`, lines 43-46).  Error taxonomy from §7. -/
inductive BuildError where
  | DataShapeError
  | ConfigError
deriving DecidableEq

/-- Modelled from the spec: `build(timeSeries, demandSeries, costTable, ...)`.
The three series must each have exactly `8760` entries, matching the index
domain `T`, else the build fails with `DataShapeError` and no model is
produced; the cost table must cover the four technology keys, else the build
fails with `ConfigError` (extra keys are unrepresentable here because the
key type `Tech` has exactly the four technologies).  On success the loaded
per-hour data is returned; on failure nothing is. -/
def build (wind solar demand : List ℚ) (costKeys : List Tech) :
    Except BuildError ModelData :=
  if hlen : wind.length = numHours ∧ solar.length = numHours ∧
      demand.length = numHours then
    if ∀ k : Tech, k ∈ costKeys then
      .ok ⟨fun t => wind.get ⟨t.val, by rw [hlen.1]; exact t.isLt⟩,
           fun t => solar.get ⟨t.val, by rw [hlen.2.1]; exact t.isLt⟩,
           fun t => demand.get ⟨t.val, by rw [hlen.2.2]; exact t.isLt⟩⟩
    else .error .ConfigError
  else .error .DataShapeError

/-- The all-zero data instance (zero capacity factors, zero demand). -/
def zeroData : ModelData := ⟨fun _ => 0, fun _ => 0, fun _ => 0⟩

/-- The all-zero assignment: build nothing, dispatch nothing. -/
def zeroAssign : Assignment :=
  ⟨fun _ => 0, fun _ => 0, fun _ => 0, fun _ => 0, fun _ => 0⟩

/-- Data for a feasible point that charges and discharges simultaneously:
full solar every hour, demand `0.855`. -/
def simData : ModelData := ⟨fun _ => 0, fun _ => 1, fun _ => 0.855⟩

/-- An assignment holding the state of charge flat while charging at 1 GW
and discharging at 0.855 GW in every hour (`1 * 0.95 = 0.855 / 0.9`). -/
def simAssign : Assignment where
  cap := fun i => match i with
    | .w_cap => 0
    | .s_cap => 1
    | .ESS_power_cap => 2
    | .ESS_energy_cap => 1
  ESS_SOC := fun _ => 0.5
  ESS_c := fun _ => 1
  ESS_d := fun _ => 0.855
  curt := fun _ => 0

/-- The total cost as the specification writes it: capital cost per unit of
installed capacity for each of the four technologies (used as given, with no
annualization factor), plus, over all 8760 hours, discharge times the
storage variable discharge cost and curtailment times the curtailment
penalty — and nothing else. -/
def spec_total_cost (a : Assignment) : ℚ :=
  (a.cap .w_cap * wind_cap_cost + a.cap .s_cap * solar_cap_cost
      + a.cap .ESS_power_cap * ESS_p_cap_cost
      + a.cap .ESS_energy_cap * ESS_e_cap_cost) +
    ∑ t : Hour, (a.ESS_d t * ESS_p_var_cost + a.curt t * curtailment_cost)

/-- The SOC constraint row at hour `i`, rewritten through `prevHour`: the two
branches of `SOC_const` are exactly the cyclic predecessor. -/
lemma SOC_const_iff_prevHour (a : Assignment) (i : Hour) :
    SOC_const a i ↔
      a.ESS_SOC i = a.ESS_SOC (prevHour i)
        + a.ESS_c i * ESS_eta_c - a.ESS_d i / ESS_eta_d := by
  have h0 : i = firstHour ↔ i.val = 0 := by
    simp [firstHour, Fin.ext_iff]
  unfold SOC_const prevHour
  by_cases h : i.val = 0
  · simp [h0, h]
  · simp [h0, h]

lemma prevHour_injective : Function.Injective prevHour := by
  intro a b hab
  rcases a with ⟨av, ha⟩
  rcases b with ⟨bv, hb⟩
  unfold prevHour at hab
  by_cases h1 : av = 0 <;> by_cases h2 : bv = 0 <;>
    simp only [h1, h2, if_true, if_false, lastHour, Fin.mk.injEq,
      if_pos, if_neg, Fin.ext_iff] at hab ⊢ <;> omega

lemma sum_comp_prevHour (f : Hour → ℚ) :
    ∑ t : Hour, f (prevHour t) = ∑ t : Hour, f t :=
  Function.Bijective.sum_comp
    (Finite.injective_iff_bijective.mp prevHour_injective) f

lemma tech_univ :
    (Finset.univ : Finset Tech)
      = {Tech.w_cap, Tech.s_cap, Tech.ESS_power_cap, Tech.ESS_energy_cap} := by
  decide

lemma tech_sum (f : Tech → ℚ) :
    ∑ i : Tech, f i
      = f .w_cap + f .s_cap + f .ESS_power_cap + f .ESS_energy_cap := by
  rw [tech_univ]
  rw [Finset.sum_insert (by decide), Finset.sum_insert (by decide),
    Finset.sum_insert (by decide), Finset.sum_singleton]
  ring

lemma zero_feasible : Feasible zeroData zeroAssign := by
  refine ⟨⟨fun i => le_refl 0, fun t => le_refl 0, fun t => le_refl 0,
      fun t => le_refl 0, fun t => le_refl 0⟩, fun t => ?_⟩
  refine ⟨?_, ?_, ?_, ?_, ?_⟩ <;>
    simp [match_const, ESS_charge_disc_const, ESS_max_const, ESS_min_const,
      SOC_const, zeroData, zeroAssign]

lemma obj_zero : obj_expression costs zeroAssign = 0 := by
  simp [obj_expression, zeroAssign]

lemma costs_nonneg (i : Tech) : 0 ≤ costs i := by
  cases i <;>
    norm_num [costs, wind_cap_cost, solar_cap_cost, ESS_p_cap_cost,
      ESS_e_cap_cost]

lemma obj_nonneg (a : Assignment) (h : VarDomains a) :
    0 ≤ obj_expression costs a := by
  unfold obj_expression
  apply add_nonneg
  · exact Finset.sum_nonneg fun i _ => mul_nonneg (h.1 i) (costs_nonneg i)
  · refine Finset.sum_nonneg fun t _ => add_nonneg ?_ ?_
    · exact mul_nonneg (h.2.2.2.1 t) (by norm_num [ESS_p_var_cost])
    · exact mul_nonneg (h.2.2.2.2 t) (by norm_num [curtailment_cost])

lemma zero_optimal : IsOptimalValue costs zeroData 0 :=
  ⟨⟨zeroAssign, zero_feasible, obj_zero⟩, fun a ha => obj_nonneg a ha.1⟩

lemma sim_domains : VarDomains simAssign := by
  refine ⟨fun i => ?_, fun t => ?_, fun t => ?_, fun t => ?_, fun t => ?_⟩
  · cases i <;> norm_num [simAssign]
  all_goals norm_num [simAssign]

lemma sim_feasible : Feasible simData simAssign := by
  refine ⟨sim_domains, fun t => ⟨?_, ?_, ?_, ?_, ?_⟩⟩
  · norm_num [match_const, simData, simAssign]
  · norm_num [ESS_charge_disc_const, simAssign]
  · norm_num [ESS_max_const, simAssign]
  · norm_num [ESS_min_const, simAssign, ESS_min_level]
  · unfold SOC_const
    split <;> norm_num [simAssign, ESS_eta_c, ESS_eta_d]

/-- C1: for every hour t of the built model, every feasible point satisfies
the power balance as an exact equality — solar capacity factor times solar
capacity, plus wind capacity factor times wind capacity, plus discharge,
minus charge, minus curtailment, minus demand, equals zero.  The model has
no slack term and no unserved-demand variable: `Assignment` lists every
decision variable and `match_const` is an equality row. -/
theorem C1_power_balance (d : ModelData) (a : Assignment)
    (h : Feasible d a) (t : Hour) :
    d.solar t * a.cap .s_cap + d.wind t * a.cap .w_cap + a.ESS_d t
      - a.ESS_c t - a.curt t - d.demand t = 0 :=
  (h.2 t).1

theorem C1_power_balance_witness :
    Feasible zeroData zeroAssign ∧
      zeroData.solar firstHour * zeroAssign.cap .s_cap
        + zeroData.wind firstHour * zeroAssign.cap .w_cap
        + zeroAssign.ESS_d firstHour - zeroAssign.ESS_c firstHour
        - zeroAssign.curt firstHour - zeroData.demand firstHour = 0 :=
  ⟨zero_feasible, C1_power_balance zeroData zeroAssign zero_feasible firstHour⟩

/-- C2: for every hour t, the model's state-of-charge constraint row is
exactly `soc[t] = soc[prev(t)] + charge[t]*eta_charge - discharge[t]/eta_discharge`,
where `prev` is the chronologically preceding hour for every hour after the
first and wraps the first hour to the last hour, with `eta_charge = 0.95`
and `eta_discharge = 0.9`. -/
theorem C2_soc_recursion :
    (∀ (a : Assignment) (t : Hour),
      SOC_const a t ↔
        a.ESS_SOC t = a.ESS_SOC (prevHour t)
          + a.ESS_c t * ESS_eta_c - a.ESS_d t / ESS_eta_d) ∧
    prevHour firstHour = lastHour ∧
    (∀ t : Hour, t ≠ firstHour → (prevHour t).val = t.val - 1) ∧
    ESS_eta_c = 0.95 ∧ ESS_eta_d = 0.9 := by
  refine ⟨SOC_const_iff_prevHour, ?_, ?_, rfl, rfl⟩
  · simp [prevHour, firstHour]
  · intro t ht
    have h0 : t.val ≠ 0 := by
      simpa [firstHour, Fin.ext_iff] using ht
    simp [prevHour, h0]

theorem C2_soc_recursion_witness :
    SOC_const zeroAssign firstHour ∧
      zeroAssign.ESS_SOC firstHour
        = zeroAssign.ESS_SOC (prevHour firstHour)
          + zeroAssign.ESS_c firstHour * ESS_eta_c
          - zeroAssign.ESS_d firstHour / ESS_eta_d :=
  have hsoc : SOC_const zeroAssign firstHour :=
    ((zero_feasible.2 firstHour).2.2.2.2)
  ⟨hsoc, (C2_soc_recursion.1 zeroAssign firstHour).mp hsoc⟩

/-- C3: the objective the model minimizes coincides, on every assignment,
with the specification's total cost: the four capital-cost terms (not
annualized) plus the hourly discharge-cost and curtailment-penalty terms,
with no other terms. -/
theorem C3_objective (a : Assignment) :
    obj_expression costs a = spec_total_cost a := by
  unfold obj_expression spec_total_cost
  rw [tech_sum fun i => a.cap i * costs i]
  simp only [costs]

theorem C3_objective_witness :
    obj_expression costs zeroAssign = spec_total_cost zeroAssign :=
  C3_objective zeroAssign

/-- C4: every decision variable of the model — the four capacities and the
per-hour state of charge, charge, discharge, and curtailment — is declared
over a non-negative domain, so no feasible point gives any of them a
negative value.  In the embedding the restriction is the separate
`VarDomains` component of `Feasible`, mirroring the `domain =
NonNegativeReals` variable declarations, not an added constraint row. -/
theorem C4_nonneg_domains (d : ModelData) (a : Assignment)
    (h : Feasible d a) :
    (∀ i : Tech, 0 ≤ a.cap i) ∧ (∀ t : Hour, 0 ≤ a.ESS_SOC t) ∧
      (∀ t : Hour, 0 ≤ a.ESS_c t) ∧ (∀ t : Hour, 0 ≤ a.ESS_d t) ∧
      (∀ t : Hour, 0 ≤ a.curt t) :=
  h.1

theorem C4_nonneg_domains_witness :
    Feasible zeroData zeroAssign ∧ (0 : ℚ) ≤ zeroAssign.cap Tech.s_cap :=
  ⟨zero_feasible,
    (C4_nonneg_domains zeroData zeroAssign zero_feasible).1 Tech.s_cap⟩

/-- C5: for every assignment satisfying all 8760 state-of-charge rows with
the cyclic first-hour boundary, the per-hour increments
`charge[t]*eta_charge - discharge[t]/eta_discharge` sum to zero around the
full cycle: the recursion returns the state of charge to its starting
value (round-trip/closure law). -/
theorem C5_cyclic_closure (a : Assignment) (h : ∀ t : Hour, SOC_const a t) :
    ∑ t : Hour, (a.ESS_c t * ESS_eta_c - a.ESS_d t / ESS_eta_d) = 0 := by
  have hrec : ∀ t : Hour, a.ESS_SOC t
      = a.ESS_SOC (prevHour t)
        + (a.ESS_c t * ESS_eta_c - a.ESS_d t / ESS_eta_d) := by
    intro t
    rw [(SOC_const_iff_prevHour a t).mp (h t)]
    ring
  have hsum : ∑ t : Hour, a.ESS_SOC t
      = ∑ t : Hour, a.ESS_SOC (prevHour t)
        + ∑ t : Hour, (a.ESS_c t * ESS_eta_c - a.ESS_d t / ESS_eta_d) := by
    rw [← Finset.sum_add_distrib]
    exact Finset.sum_congr rfl fun t _ => hrec t
  rw [sum_comp_prevHour (fun t => a.ESS_SOC t)] at hsum
  linarith

theorem C5_cyclic_closure_witness :
    (∀ t : Hour, SOC_const zeroAssign t) ∧
      ∑ t : Hour,
        (zeroAssign.ESS_c t * ESS_eta_c - zeroAssign.ESS_d t / ESS_eta_d)
        = 0 :=
  ⟨fun t => (zero_feasible.2 t).2.2.2.2,
    C5_cyclic_closure zeroAssign fun t => (zero_feasible.2 t).2.2.2.2⟩

/-- C6: every feasible point keeps the state of charge between the
minimum-level fraction 0.20 of installed storage energy capacity and the
full installed energy capacity, at every hour. -/
theorem C6_soc_bounds (d : ModelData) (a : Assignment)
    (h : Feasible d a) (t : Hour) :
    (0.20 : ℚ) * a.cap .ESS_energy_cap ≤ a.ESS_SOC t ∧
      a.ESS_SOC t ≤ a.cap .ESS_energy_cap := by
  refine ⟨?_, (h.2 t).2.2.1⟩
  have hmin := (h.2 t).2.2.2.1
  simpa [ESS_min_const, ESS_min_level] using hmin

theorem C6_soc_bounds_witness :
    Feasible simData simAssign ∧
      (0.20 : ℚ) * simAssign.cap .ESS_energy_cap
        ≤ simAssign.ESS_SOC firstHour ∧
      simAssign.ESS_SOC firstHour ≤ simAssign.cap .ESS_energy_cap :=
  ⟨sim_feasible, C6_soc_bounds simData simAssign sim_feasible firstHour⟩

/-- C7: every feasible point satisfies
`charge[t] + discharge[t] <= cap[ESS_power_cap]` at every hour, and no
constraint forbids charging and discharging in the same hour: there is a
feasible point whose charge and discharge are both strictly positive at
some hour. -/
theorem C7_power_limit :
    (∀ (d : ModelData) (a : Assignment), Feasible d a →
      ∀ t : Hour, a.ESS_c t + a.ESS_d t ≤ a.cap .ESS_power_cap) ∧
    (∃ (d : ModelData) (a : Assignment), Feasible d a ∧
      ∃ t : Hour, 0 < a.ESS_c t ∧ 0 < a.ESS_d t) := by
  constructor
  · exact fun d a h t => (h.2 t).2.1
  · refine ⟨simData, simAssign, sim_feasible, firstHour, ?_, ?_⟩ <;>
      norm_num [simAssign]

theorem C7_power_limit_witness :
    simAssign.ESS_c firstHour + simAssign.ESS_d firstHour
      ≤ simAssign.cap .ESS_power_cap :=
  C7_power_limit.1 simData simAssign sim_feasible firstHour

/-- C8: if any of the three input series has length different from 8760 —
for example 8759 — the build fails with `DataShapeError` and produces no
model. -/
theorem C8_data_shape (wind solar demand : List ℚ) (costKeys : List Tech)
    (h : wind.length ≠ numHours ∨ solar.length ≠ numHours ∨
      demand.length ≠ numHours) :
    build wind solar demand costKeys = .error .DataShapeError := by
  unfold build
  rw [dif_neg]
  tauto

theorem C8_data_shape_witness :
    (List.replicate 8759 (0 : ℚ)).length ≠ numHours ∧
      build (List.replicate 8759 (0 : ℚ)) (List.replicate 8760 (0 : ℚ))
        (List.replicate 8760 (0 : ℚ))
        [Tech.w_cap, Tech.s_cap, Tech.ESS_power_cap, Tech.ESS_energy_cap]
        = .error .DataShapeError :=
  have hlen : (List.replicate 8759 (0 : ℚ)).length ≠ numHours := by
    rw [List.length_replicate]
    decide
  ⟨hlen, C8_data_shape _ _ _ _ (Or.inl hlen)⟩

/-- C9: if the cost table does not cover exactly the four technology keys —
some technology key is missing, `ESS_power_cap` being the highlighted
instance — the build fails with `ConfigError` rather than producing a
model, even when every series has the right length. -/
theorem C9_config (wind solar demand : List ℚ) (costKeys : List Tech)
    (hlen : wind.length = numHours ∧ solar.length = numHours ∧
      demand.length = numHours)
    (hmiss : ∃ k : Tech, k ∉ costKeys) :
    build wind solar demand costKeys = .error .ConfigError := by
  unfold build
  rw [dif_pos hlen, if_neg]
  obtain ⟨k, hk⟩ := hmiss
  exact fun hall => hk (hall k)

theorem C9_config_witness :
    (List.replicate 8760 (0 : ℚ)).length = numHours ∧
      Tech.ESS_power_cap ∉ [Tech.w_cap, Tech.s_cap, Tech.ESS_energy_cap] ∧
      build (List.replicate 8760 (0 : ℚ)) (List.replicate 8760 (0 : ℚ))
        (List.replicate 8760 (0 : ℚ))
        [Tech.w_cap, Tech.s_cap, Tech.ESS_energy_cap]
        = .error .ConfigError :=
  have hlen : (List.replicate 8760 (0 : ℚ)).length = numHours := by
    rw [List.length_replicate]
  ⟨hlen, by decide,
    C9_config _ _ _ _ ⟨hlen, hlen, hlen⟩ ⟨Tech.ESS_power_cap, by decide⟩⟩

/-- C10: with the input data held fixed, if one cost table is pointwise at
least another, the optimal objective value under the larger table is at
least the optimal objective value under the smaller: raising any
`cost[tech]` never decreases the optimal objective value. -/
theorem C10_cost_monotone (c c' : Tech → ℚ) (hc : ∀ i : Tech, c i ≤ c' i)
    (d : ModelData) (v v' : ℚ)
    (h1 : IsOptimalValue c d v) (h2 : IsOptimalValue c' d v') :
    v ≤ v' := by
  obtain ⟨⟨a, ha, hav⟩, _⟩ := h2
  have hlow : v ≤ obj_expression c a := h1.2 a ha
  have hmono : obj_expression c a ≤ obj_expression c' a := by
    unfold obj_expression
    apply add_le_add_right
    exact Finset.sum_le_sum fun i _ =>
      mul_le_mul_of_nonneg_left (hc i) (ha.1.1 i)
  calc v ≤ obj_expression c a := hlow
    _ ≤ obj_expression c' a := hmono
    _ = v' := hav

theorem C10_cost_monotone_witness :
    IsOptimalValue costs zeroData 0 ∧ (0 : ℚ) ≤ 0 :=
  ⟨zero_optimal,
    C10_cost_monotone costs costs (fun i => le_refl (costs i)) zeroData 0 0
      zero_optimal zero_optimal⟩

end ZhangHwk3
